import Mathlib

/-!
Shallow embedding of `src/main.py` (the rmbg load-testing harness) and of the
spec data model, used to settle the claims about the load tester.

Modelling conventions:
* An image path `test_images/<folder>/<filename>` is represented structurally
  as an `ImagePath` pair; `os.path.basename` is `.filename` and
  `os.path.basename (os.path.dirname path)` is `.folder`.
* The filesystem is an abstract oracle (`FileSystem`): which folders and files
  exist, file sizes in bytes, and the result of PIL resolution extraction
  (`none` models `Image.open` raising, i.e. an unreadable resolution).
* The HTTP round trip is external input: an `HttpResult` per request.  A
  transport failure (connection error, timeout, or the non-2xx status raised
  by `raise_for_status`) is a `requests.exceptions.RequestException`, modelled
  as `HttpResult.requestError msg`.
* Wall-clock durations (`time.time()` differences) are inputs of type `ℚ`.
* Python-level exceptions escaping a function are modelled with `Except`:
  `Except.error` is a raised exception, `Except.ok` a normal return.
-/

/-- One unit of work: a file `test_images/<folder>/<filename>`. -/
structure ImagePath where
  folder : String
  filename : String
deriving DecidableEq, Repr

/-- Abstract filesystem oracle for the input tree. -/
structure FileSystem where
  folderExists : String → Bool
  fileExists : ImagePath → Bool
  sizeBytes : ImagePath → Nat
  imageResolution : ImagePath → Option (Nat × Nat)

/-- Outcome of the single `requests.post` call for one upload. -/
inductive HttpResult where
  | ok
  | requestError (msg : String)
deriving DecidableEq, Repr

/-- A Python exception escaping a function of the harness. -/
inductive PyError where
  | nameError (name : String)
deriving DecidableEq, Repr

/-- The per-item result dictionary built by `process_image`
(`src/main.py` lines 76-99), the OutcomeRecord of the spec.
`concurrency` is the key added by `run_concurrent_test` (line 163). -/
structure OutcomeRecord where
  folder : String
  filename : String
  status : String
  error : Option String
  processing_time : ℚ
  file_size : ℚ
  resolution : String
  width : Nat
  height : Nat
  concurrency : Option Nat := none
deriving DecidableEq, Repr

/-- `FOLDERS` constant, `src/main.py` line 18. -/
def FOLDERS : List String := ["w512", "w1080", "w1920", "w2560", "w3840"]

/-- `MAX_CONCURRENT` constant, `src/main.py` line 19. -/
def MAX_CONCURRENT : Nat := 10

/-- The ten fixed filenames enumerated by every generator:
`[f"img{i}.jpg" for i in range(10)]`. -/
def imageNames : List String :=
  (List.range 10).map (fun i => "img" ++ toString i ++ ".jpg")

/-- `process_image` (`src/main.py` lines 36-99).

Inputs besides the path: the filesystem oracle, the HTTP outcome of this
request, and the measured elapsed time `elapsed` (the value of
`time.time() - start_time` when it is read).

Source-faithful detail: the `try` around `get_image_resolution` leaves
`width`/`height` unbound when extraction fails.  The success branch (lines
83-84) reads `width` and `height` unconditionally, so with an unreadable
resolution a successful request raises `NameError`; the error branch (lines
97-98) guards with a locals() lookup of the name width and substitutes `0`. -/
def process_image (fs : FileSystem) (http : HttpResult) (elapsed : ℚ)
    (image_path : ImagePath) : Except PyError OutcomeRecord :=
  let image_filename := image_path.filename
  let file_size : ℚ := (fs.sizeBytes image_path : ℚ) / (1024 * 1024)
  let wh := fs.imageResolution image_path
  let resolution : String :=
    match wh with
    | some (w, h) => toString w ++ "x" ++ toString h
    | none => "Unknown"
  match http with
  | HttpResult.ok =>
      match wh with
      | some (w, h) =>
          Except.ok
            { folder := image_path.folder
              filename := image_filename
              status := "success"
              error := none
              processing_time := elapsed
              file_size := file_size
              resolution := resolution
              width := w
              height := h }
      | none => Except.error (PyError.nameError "width")
  | HttpResult.requestError msg =>
      Except.ok
        { folder := image_path.folder
          filename := image_filename
          status := "error"
          error := some msg
          processing_time := elapsed
          file_size := file_size
          resolution := resolution
          width := (wh.map Prod.fst).getD 0
          height := (wh.map Prod.snd).getD 0 }

/-! ## Workload generators -/

/-- The folders actually processed by a generator pass: the `for folder in
FOLDERS` loop with its `continue` on a missing folder
(`src/main.py` lines 110-114, 138-142, 188-190). -/
def seqFolderOrder (fs : FileSystem) : List String :=
  FOLDERS.filter fs.folderExists

/-- The WorkItems dispatched by `run_sequential_test`
(`src/main.py` lines 110-125): for each existing folder, the ten fixed
filenames filtered by existence, in enumeration order. -/
def sequentialItems (fs : FileSystem) : List ImagePath :=
  (seqFolderOrder fs).flatMap (fun folder =>
    (imageNames.filter (fun n => fs.fileExists (ImagePath.mk folder n))).map
      (fun n => ImagePath.mk folder n))

/-- The per-folder image list of `run_concurrent_test`
(`src/main.py` lines 145-146). -/
def concurrentFolderImages (fs : FileSystem) (folder : String) : List ImagePath :=
  (imageNames.map (fun n => ImagePath.mk folder n)).filter fs.fileExists

/-- The rounds run by `run_concurrent_test` for one folder
(`src/main.py` lines 148-166): skipped when no images exist, otherwise one
round per concurrency level `workers ∈ range(2, maxConc + 1)`, each round
dispatching the whole image list of the folder.  The concurrency ceiling
(`MAX_CONCURRENT` in the source) is passed explicitly. -/
def concurrentRounds (fs : FileSystem) (maxConc : Nat) (folder : String) :
    List (Nat × List ImagePath) :=
  let images := concurrentFolderImages fs folder
  if images.isEmpty then []
  else (List.range' 2 (maxConc - 1)).map (fun workers => (workers, images))

/-- All WorkItems dispatched by one `run_concurrent_test` pass. -/
def concurrentItems (fs : FileSystem) (maxConc : Nat) : List ImagePath :=
  (seqFolderOrder fs).flatMap (fun folder =>
    (concurrentRounds fs maxConc folder).flatMap (fun round => round.2))

/-- The result-collection loop of the concurrent dispatcher
(`src/main.py` lines 157-166): `completed` is the items in `as_completed`
order; a worker that returns normally contributes its record (with the
`concurrency` key added, line 163), while a worker whose `future.result()`
re-raises only prints `Executor error` and contributes nothing. -/
def collect_results (workers : Nat) (exec : ImagePath → Except PyError OutcomeRecord)
    (completed : List ImagePath) : List OutcomeRecord :=
  completed.filterMap (fun img =>
    match exec img with
    | Except.ok r => some { r with concurrency := some workers }
    | Except.error _ => none)

/-- The pool collected by `run_random_test` (`src/main.py` lines 185-194). -/
def allImagePaths (fs : FileSystem) : List ImagePath :=
  (seqFolderOrder fs).flatMap (fun folder =>
    (imageNames.map (fun n => ImagePath.mk folder n)).filter fs.fileExists)

/-- `run_random_test` (`src/main.py` lines 179-207).  `sample` models
`random.sample` (the injected randomness source); the sample size is clamped
to the pool size on line 197 before sampling.  Returns the printed sample
size together with the records; an executor exception propagates (the loop
on lines 203-205 has no handler). -/
def run_random_test (fs : FileSystem)
    (sample : Nat → List ImagePath → List ImagePath)
    (exec : ImagePath → Except PyError OutcomeRecord) :
    Except PyError (Nat × List OutcomeRecord) :=
  let pool := allImagePaths fs
  let sample_size := min 5 pool.length
  let selected := sample sample_size pool
  (selected.mapM exec).map (fun rs => (sample_size, rs))

/-- Modelled from the spec: the Fixed-Count-Stress generator ("repeat a
bounded pool of WorkItems cyclically until a target total request count is
reached (default 500) ... stop exactly at the target count even mid-cycle")
has no implementation under `src/`; `main` (`src/main.py` lines 257-327)
runs only the sequential, concurrent and random phases.  The i-th dispatched
item is the `(i mod pool size)`-th pool element; an empty pool yields no
items. -/
def fixedCountStressItems (pool : List ImagePath) (target : Nat) : List ImagePath :=
  if pool.isEmpty then []
  else (List.range target).map (fun i => pool.getD (i % pool.length) (ImagePath.mk "" ""))

/-- Modelled from the spec: running the Fixed-Count-Stress generator with a
Request Executor that converts every failure into a record (spec section 4.1)
produces one OutcomeRecord per dispatched item. -/
def run_fixed_count_stress (pool : List ImagePath)
    (exec : ImagePath → OutcomeRecord) (target : Nat) : List OutcomeRecord :=
  (fixedCountStressItems pool target).map exec

/-! ## Aggregator (`generate_summary`, `src/main.py` lines 210-254)

Latency statistics are modelled over `ℚ`; a pandas aggregation over an empty
series yields `NaN`, modelled as `none`.  `pandas.groupby` sorts group keys
ascending; Python string comparison is lexicographic on code points,
modelled by `strLe` on the character lists. -/

/-- Lexicographic comparison of character lists (Python string `<=`). -/
def lexLe : List Char → List Char → Bool
  | [], _ => true
  | _ :: _, [] => false
  | a :: as, b :: bs => if a < b then true else if b < a then false else lexLe as bs

/-- Python string comparison, lexicographic on code points. -/
def strLe (a b : String) : Bool := lexLe a.toList b.toList

/-- Insert into a `strLe`-sorted list of keys. -/
def insSortedStr (a : String) : List String → List String
  | [] => [a]
  | b :: bs => if strLe a b then a :: b :: bs else b :: insSortedStr a bs

/-- Insertion sort of group keys (the ascending key order of
`pandas.groupby`). -/
def sortStr (l : List String) : List String := l.foldr insSortedStr []

/-- `pandas` mean over a column: `NaN` (here `none`) when empty. -/
def meanQ (xs : List ℚ) : Option ℚ :=
  if xs.isEmpty then none else some (xs.sum / (xs.length : ℚ))

/-- Insert into a `≤`-sorted list of rationals. -/
def insSortedQ (a : ℚ) : List ℚ → List ℚ
  | [] => [a]
  | b :: bs => if a ≤ b then a :: b :: bs else b :: insSortedQ a bs

/-- Ascending sort of a rational column. -/
def sortQ (l : List ℚ) : List ℚ := l.foldr insSortedQ []

/-- `pandas` median: middle of the sorted column for odd length, mean of the
two middle elements for even length, `NaN` (here `none`) when empty. -/
def medianQ (xs : List ℚ) : Option ℚ :=
  let s := sortQ xs
  let n := s.length
  if n % 2 = 1 then s.get? (n / 2)
  else
    match s.get? (n / 2 - 1), s.get? (n / 2) with
    | some a, some b => some ((a + b) / 2)
    | _, _ => none

/-- One row of the summary table (`src/main.py` lines 224-234 and 239-249). -/
structure SummaryRow where
  folder : String
  total_images : Nat
  successful : Nat
  failed : Nat
  avg_time : Option ℚ
  min_time : Option ℚ
  max_time : Option ℚ
  median_time : Option ℚ
  avg_size_mb : Option ℚ
deriving Repr

/-- The `processing_time` column restricted to successful records
(the processing_time column of the rows whose status is success). -/
def successTimes (rs : List OutcomeRecord) : List ℚ :=
  (rs.filter (fun r => r.status == "success")).map (fun r => r.processing_time)

/-- The summary row built for one record set (the overall row with name
`"All"`, lines 224-234, and each per-folder row, lines 239-249, are the same
computation over a different record set). -/
def folderRow (name : String) (rs : List OutcomeRecord) : SummaryRow :=
  { folder := name
    total_images := rs.length
    successful := (rs.filter (fun r => r.status == "success")).length
    failed := (rs.filter (fun r => r.status == "error")).length
    avg_time := meanQ (successTimes rs)
    min_time := (successTimes rs).min?
    max_time := (successTimes rs).max?
    median_time := medianQ (successTimes rs)
    avg_size_mb := meanQ (rs.map (fun r => r.file_size)) }

/-- The sorted distinct grouping keys of the groupby on the folder column. -/
def groupKeys (rs : List OutcomeRecord) : List String :=
  sortStr ((rs.map (fun r => r.folder)).dedup)

/-- `generate_summary` (`src/main.py` lines 210-254): `None` for an empty
result list; an empty table when no record succeeded; otherwise the overall
row followed by one row per grouping key. -/
def generate_summary (results : List OutcomeRecord) : Option (List SummaryRow) :=
  if results.isEmpty then none
  else if (results.filter (fun r => r.status == "success")).isEmpty then some []
  else
    some (folderRow "All" results ::
      (groupKeys results).map (fun g =>
        folderRow g (results.filter (fun r => r.folder == g))))

/-- The numeric width encoded in a folder name such as `"w512"`: the digits
after the leading character. -/
def widthOf (s : String) : Nat :=
  (s.toList.drop 1).foldl (fun acc c => acc * 10 + (c.toNat - 48)) 0

/-- Stated from the spec for comparison with the code (spec section 4.2,
Increasing-Concurrency): the batch sizes of a partition of `n` items where
batch `i` has size `min (2 + i) c` or the remaining item count if smaller.
The first argument is fuel, always instantiated with `n` itself. -/
def specBatchSizesAux (c : Nat) : Nat → Nat → Nat → List Nat
  | 0, _, _ => []
  | _ + 1, 0, _ => []
  | fuel + 1, rem + 1, i =>
      let size := min (min (2 + i) c) (rem + 1)
      if size = 0 then []
      else size :: specBatchSizesAux c fuel (rem + 1 - size) (i + 1)

/-- Stated from the spec: the batch-size partition of `n` items under
ceiling `c` that the spec describes for Increasing-Concurrency. -/
def specBatchSizes (n c : Nat) : List Nat :=
  specBatchSizesAux c n n 0

/-! ## Concrete instances used by single claims -/

/-- Filesystem where every file exists, has size 1000 bytes, and no
resolution can be extracted. -/
def fsC4 : FileSystem :=
  FileSystem.mk (fun _ => true) (fun _ => true) (fun _ => 1000) (fun _ => none)

/-- Filesystem where every file exists with an unreadable resolution. -/
def fsC5 : FileSystem :=
  FileSystem.mk (fun _ => true) (fun _ => true) (fun _ => 2048) (fun _ => none)

/-- Filesystem where every file exists with size 2 MiB = 2097152 bytes. -/
def fsC9 : FileSystem :=
  FileSystem.mk (fun _ => true) (fun _ => true) (fun _ => 2097152) (fun _ => none)

/-- A sample input path. -/
def pC9 : ImagePath := ImagePath.mk "w512" "img0.jpg"

/-- The record `process_image` returns on `fsC9` for a failed request. -/
def rC9 : OutcomeRecord :=
  { folder := "w512"
    filename := "img0.jpg"
    status := "error"
    error := some "connection refused"
    processing_time := 1
    file_size := (fsC9.sizeBytes pC9 : ℚ) / (1024 * 1024)
    resolution := "Unknown"
    width := 0
    height := 0 }

/-! ## Claims about the Request Executor -/

/-- C4: when the HTTP request fails with a transport error
(`requests.exceptions.RequestException`, which covers connection refused,
timeout, and the non-success status raised by `raise_for_status`),
`process_image` returns normally with an OutcomeRecord of status `error`,
carrying the error description and the elapsed duration, which is
nonnegative whenever the measured elapsed time is. -/
theorem C4_transport_error_record (fs : FileSystem) (p : ImagePath) (msg : String)
    (elapsed : ℚ) (hmsg : msg ≠ "") (ht : 0 ≤ elapsed) :
    ∃ r : OutcomeRecord,
      process_image fs (HttpResult.requestError msg) elapsed p = Except.ok r
        ∧ r.status = "error" ∧ r.error = some msg ∧ msg ≠ ""
        ∧ r.processing_time = elapsed ∧ 0 ≤ r.processing_time :=
  ⟨_, rfl, rfl, rfl, hmsg, rfl, ht⟩

/-- Witness for C4 at a concrete unreachable-endpoint scenario. -/
theorem C4_transport_error_record_witness :
    ∃ r : OutcomeRecord,
      process_image fsC4 (HttpResult.requestError "connection refused") 1
          (ImagePath.mk "w512" "img0.jpg") = Except.ok r
        ∧ r.status = "error" ∧ r.error = some "connection refused"
        ∧ "connection refused" ≠ ""
        ∧ r.processing_time = 1 ∧ (0 : ℚ) ≤ r.processing_time :=
  C4_transport_error_record fsC4 (ImagePath.mk "w512" "img0.jpg")
    "connection refused" 1 (by decide) (by norm_num)

/-- C5: with an unreadable resolution, a *successful* request makes
`process_image` raise `NameError` (the success dictionary reads the unbound
`width`, `src/main.py` line 83) instead of returning a record; only the
transport-error branch returns a record with the `"Unknown"` sentinel. -/
theorem C5_unknown_resolution_behavior :
    process_image fsC5 HttpResult.ok 1 (ImagePath.mk "w1080" "img3.jpg")
      = Except.error (PyError.nameError "width")
    ∧ ∃ r, process_image fsC5 (HttpResult.requestError "boom") 1
          (ImagePath.mk "w1080" "img3.jpg") = Except.ok r
        ∧ r.resolution = "Unknown" ∧ r.width = 0 ∧ r.height = 0 :=
  ⟨rfl, _, rfl, rfl, rfl, rfl⟩

/-- C9 counterexample: a 2097152-byte input is recorded with
`file_size = 2` (megabytes), not `2097152` (bytes). -/
theorem C9_counterexample :
    ∃ r, process_image fsC9 (HttpResult.requestError "connection refused") 1 pC9
        = Except.ok r
      ∧ r.file_size ≠ (fsC9.sizeBytes pC9 : ℚ)
      ∧ r.file_size = 2 ∧ fsC9.sizeBytes pC9 = 2097152 := by
  refine ⟨_, rfl, ?_, ?_, rfl⟩
  · show ((2097152 : Nat) : ℚ) / (1024 * 1024) ≠ ((2097152 : Nat) : ℚ)
    norm_num
  · show ((2097152 : Nat) : ℚ) / (1024 * 1024) = 2
    norm_num

/-- C9 amended: every OutcomeRecord `process_image` returns records the input
size in megabytes, `sizeBytes / (1024 * 1024)`. -/
theorem C9_file_size_megabytes (fs : FileSystem) (http : HttpResult) (elapsed : ℚ)
    (p : ImagePath) (r : OutcomeRecord)
    (h : process_image fs http elapsed p = Except.ok r) :
    r.file_size = (fs.sizeBytes p : ℚ) / (1024 * 1024) := by
  cases http with
  | ok =>
      cases hw : fs.imageResolution p with
      | none =>
          simp only [process_image, hw] at h
          exact Except.noConfusion h
      | some wh =>
          obtain ⟨w, ht⟩ := wh
          simp only [process_image, hw] at h
          injection h with h
          subst h
          rfl
  | requestError msg =>
      simp only [process_image] at h
      injection h with h
      subst h
      rfl

/-- Witness for C9 amended at the concrete 2 MiB input. -/
theorem C9_file_size_megabytes_witness :
    rC9.file_size = (fsC9.sizeBytes pC9 : ℚ) / (1024 * 1024) :=
  C9_file_size_megabytes fsC9 (HttpResult.requestError "connection refused") 1 pC9 rC9 rfl

/-! ## Claims about the concurrent dispatcher -/

/-- Filesystem for the C1 counterexample: files exist, resolution
unreadable, so a successful request makes the worker raise. -/
def fsC1 : FileSystem :=
  FileSystem.mk (fun _ => true) (fun _ => true) (fun _ => 4096) (fun _ => none)

/-- A single dispatched item for the C1 counterexample. -/
def pC1 : ImagePath := ImagePath.mk "w1920" "img5.jpg"

/-- Filesystem for the C1 witness: files exist with readable resolution. -/
def fsC1b : FileSystem :=
  FileSystem.mk (fun _ => true) (fun _ => true) (fun _ => 4096) (fun _ => some (64, 48))

/-- C1 counterexample: dispatching one WorkItem whose worker raises (here the
`NameError` of `process_image` on a successful request with unreadable
resolution) collects zero OutcomeRecords — the item is dropped, so the
record count does not equal the dispatched count. -/
theorem C1_counterexample :
    (collect_results 2 (fun p => process_image fsC1 HttpResult.ok 1 p) [pC1]).length = 0
    ∧ [pC1].length = 1 := by decide

/-- C1 amended: the collection loop keeps exactly one record per dispatched
item whose worker returns normally (success or error record alike) and
silently drops every item whose worker raises; in particular, when no worker
raises, exactly one record is collected per dispatched item. -/
theorem C1_records_per_normal_return (workers : Nat)
    (exec : ImagePath → Except PyError OutcomeRecord) (completed : List ImagePath) :
    (collect_results workers exec completed).length
      = completed.countP (fun p => (exec p).isOk)
    ∧ ((∀ p ∈ completed, (exec p).isOk) →
        (collect_results workers exec completed).length = completed.length) := by
  have hmain : (collect_results workers exec completed).length
      = completed.countP (fun p => (exec p).isOk) := by
    induction completed with
    | nil => rfl
    | cons a l ih =>
        simp only [collect_results, List.filterMap_cons, List.countP_cons] at ih ⊢
        cases h : exec a with
        | ok r => simp [h, ih, Except.isOk, Except.toBool]
        | error e => simp [h, ih, Except.isOk, Except.toBool]
  refine ⟨hmain, fun hall => ?_⟩
  rw [hmain]
  exact List.countP_eq_length.mpr hall

/-- Witness for C1 amended: two items whose workers all return normally
yield exactly two records. -/
theorem C1_records_per_normal_return_witness :
    (collect_results 3 (fun p => process_image fsC1b HttpResult.ok 1 p)
        [ImagePath.mk "w512" "img0.jpg", ImagePath.mk "w512" "img1.jpg"]).length
      = [ImagePath.mk "w512" "img0.jpg", ImagePath.mk "w512" "img1.jpg"].length :=
  (C1_records_per_normal_return 3 (fun p => process_image fsC1b HttpResult.ok 1 p)
      [ImagePath.mk "w512" "img0.jpg", ImagePath.mk "w512" "img1.jpg"]).2
    (by decide)

/-! ## Claims about the Increasing-Concurrency generator -/

/-- Filesystem for C2: one folder `w512` containing the first nine of the
ten fixed images. -/
def fsC2 : FileSystem :=
  FileSystem.mk (fun f => f == "w512")
    (fun p => p.folder == "w512" && decide (p.filename ∈ imageNames.take 9))
    (fun _ => 1024) (fun _ => some (8, 8))

/-- C2 counterexample: for a grouping with 9 items under ceiling 4 the spec
partition would be batches [2, 3, 4] covering the 9 items once, but the code
runs 3 rounds of all 9 items each — 27 dispatches, not a partition. -/
theorem C2_counterexample :
    ((concurrentRounds fsC2 4 "w512").map (fun round => round.2.length) = [9, 9, 9]
      ∧ specBatchSizes 9 4 = [2, 3, 4])
    ∧ (concurrentRounds fsC2 4 "w512").map (fun round => round.2.length)
        ≠ specBatchSizes 9 4
    ∧ ((concurrentRounds fsC2 4 "w512").flatMap (fun round => round.2)).length ≠ 9 := by
  decide

/-- C2 amended: for a grouping with at least one existing item and ceiling
`maxConc`, the generator runs `maxConc - 1` successive rounds; the i-th round
(0-indexed) uses concurrency `2 + i` and re-dispatches the entire image list
of the folder, so each item is dispatched `maxConc - 1` times rather than
being partitioned into batches. -/
theorem C2_rounds_repeat_all_items (fs : FileSystem) (maxConc : Nat) (folder : String)
    (h : concurrentFolderImages fs folder ≠ []) :
    concurrentRounds fs maxConc folder
      = (List.range (maxConc - 1)).map
          (fun i => (2 + i, concurrentFolderImages fs folder)) := by
  unfold concurrentRounds
  rw [if_neg (by simpa [List.isEmpty_iff] using h)]
  rw [List.range'_eq_map_range, List.map_map]
  rfl

/-- Witness for C2 amended at the 9-item, ceiling-4 grouping. -/
theorem C2_rounds_repeat_all_items_witness :
    concurrentRounds fsC2 4 "w512"
      = (List.range (4 - 1)).map (fun i => (2 + i, concurrentFolderImages fsC2 "w512")) :=
  C2_rounds_repeat_all_items fsC2 4 "w512" (by decide)

/-! ## Claims about the Random-Sample generator -/

/-- Helper: mapping a monadic executor that never raises over a list returns
normally with one result per element. -/
theorem mapM_ok_of_all_isOk {ε α β : Type} (exec : α → Except ε β) :
    ∀ l : List α, (∀ p ∈ l, (exec p).isOk = true) →
      ∃ rs : List β, l.mapM exec = Except.ok rs ∧ rs.length = l.length := by
  intro l
  induction l with
  | nil => exact fun _ => ⟨[], rfl, rfl⟩
  | cons a t ih =>
      intro h
      cases he : exec a with
      | error e =>
          have := h a (by simp)
          rw [he] at this
          simp [Except.isOk, Except.toBool] at this
      | ok r =>
          obtain ⟨rs, hrs, hlen⟩ := ih (fun p hp => h p (by simp [hp]))
          refine ⟨r :: rs, ?_, by simp [hlen]⟩
          rw [List.mapM_cons, he, hrs]
          rfl

/-- Filesystem for C3: a single folder with only two existing images, so the
available pool is smaller than the requested sample size 5. -/
def fsC3 : FileSystem :=
  FileSystem.mk (fun f => f == "w512")
    (fun p => p.folder == "w512" && (p.filename == "img0.jpg" || p.filename == "img1.jpg"))
    (fun _ => 100) (fun _ => some (2, 2))

/-- A deterministic stand-in for `random.sample`: the first `n` pool items. -/
def takeSample (n : Nat) (l : List ImagePath) : List ImagePath := l.take n

/-- C3 counterexample: with a pool of 2 (< 5) available images the run does
not fail — it returns normally, silently clamped to a 2-item sample. -/
theorem C3_counterexample :
    (allImagePaths fsC3).length = 2
    ∧ (run_random_test fsC3 takeSample
        (fun p => process_image fsC3 (HttpResult.requestError "err") 1 p)).isOk = true := by
  decide

/-- C3 amended: when the pool holds fewer than the requested 5 items, the
generator clamps the sample size to the pool size (`min(5, len(pool))`,
line 197) and completes normally with that many records; the shortfall is
never reported as a failure. -/
theorem C3_small_pool_clamped (fs : FileSystem)
    (sample : Nat → List ImagePath → List ImagePath)
    (exec : ImagePath → Except PyError OutcomeRecord)
    (hsample : ∀ n l, n ≤ l.length → (sample n l).length = n)
    (hexec : ∀ p, (exec p).isOk = true)
    (hsmall : (allImagePaths fs).length < 5) :
    ∃ rs, run_random_test fs sample exec
        = Except.ok ((allImagePaths fs).length, rs)
      ∧ rs.length = (allImagePaths fs).length := by
  have hpoolLen : min 5 (allImagePaths fs).length = (allImagePaths fs).length :=
    Nat.min_eq_right (Nat.le_of_lt hsmall)
  obtain ⟨rs, hmap, hlen⟩ :=
    mapM_ok_of_all_isOk exec
      (sample (min 5 (allImagePaths fs).length) (allImagePaths fs))
      (fun p _ => hexec p)
  refine ⟨rs, ?_, ?_⟩
  · show Except.map (fun rs => (min 5 (allImagePaths fs).length, rs))
        (List.mapM exec (sample (min 5 (allImagePaths fs).length) (allImagePaths fs)))
        = Except.ok ((allImagePaths fs).length, rs)
    rw [hmap, hpoolLen]
    rfl
  · rw [hlen, hsample _ (allImagePaths fs) (le_of_eq hpoolLen)]
    exact hpoolLen

/-- Witness for C3 amended: the concrete 2-image pool completes with 2
records. -/
theorem C3_small_pool_clamped_witness :
    ∃ rs, run_random_test fsC3 takeSample
        (fun p => process_image fsC3 (HttpResult.requestError "err") 1 p)
        = Except.ok ((allImagePaths fsC3).length, rs)
      ∧ rs.length = (allImagePaths fsC3).length :=
  C3_small_pool_clamped fsC3 takeSample
    (fun p => process_image fsC3 (HttpResult.requestError "err") 1 p)
    (fun n l h => by simp [takeSample, List.length_take, Nat.min_eq_left h])
    (fun p => rfl)
    (by decide)

/-! ## Claims about the Aggregator -/

/-- Helper: insertion keeps exactly the old elements plus the new one. -/
theorem mem_insSortedStr (a x : String) (l : List String) :
    x ∈ insSortedStr a l ↔ x = a ∨ x ∈ l := by
  induction l with
  | nil => simp [insSortedStr]
  | cons b bs ih =>
      unfold insSortedStr
      by_cases h : strLe a b = true
      · simp [h, List.mem_cons]
      · simp [h, List.mem_cons, ih]
        tauto

/-- Helper: sorting the group keys does not change membership. -/
theorem mem_sortStr (x : String) (l : List String) : x ∈ sortStr l ↔ x ∈ l := by
  induction l with
  | nil => simp [sortStr]
  | cons b bs ih =>
      show x ∈ insSortedStr b (sortStr bs) ↔ x ∈ b :: bs
      rw [mem_insSortedStr]
      simp [ih, List.mem_cons]

/-- C6: when a grouping key `g` occurs in the results but has no successful
record, the aggregator never raises: it returns a value; when no record of
the whole run succeeded the summary degenerates to the empty table; and
otherwise the row of `g` carries the not-applicable sentinel (`none`,
pandas NaN) for all four latency statistics. -/
theorem C6_zero_success_degenerate (results : List OutcomeRecord) (g : String)
    (hg : g ∈ results.map (fun r => r.folder))
    (hnos : ∀ r ∈ results, r.folder = g → ¬ r.status = "success") :
    (generate_summary results).isSome = true
    ∧ ((results.filter (fun r => r.status == "success")).isEmpty = true →
        generate_summary results = some [])
    ∧ ((results.filter (fun r => r.status == "success")).isEmpty = false →
        ∃ row ∈ (generate_summary results).getD [],
          row.folder = g ∧ row.avg_time = none ∧ row.min_time = none
            ∧ row.max_time = none ∧ row.median_time = none) := by
  have hne : results.isEmpty = false := by
    cases results with
    | nil => simp at hg
    | cons a t => rfl
  have hst : successTimes (results.filter (fun r => r.folder == g)) = [] := by
    have hin : (results.filter (fun r => r.folder == g)).filter
        (fun r => r.status == "success") = [] := by
      rw [List.filter_eq_nil_iff]
      intro r hr
      obtain ⟨hrmem, hrfol⟩ := List.mem_filter.mp hr
      simpa using hnos r hrmem (by simpa using hrfol)
    unfold successTimes
    rw [hin]
    rfl
  cases hcase : (results.filter (fun r => r.status == "success")).isEmpty with
  | true =>
      have hgs : generate_summary results = some [] := by
        simp [generate_summary, hne, hcase]
      exact ⟨by simp [hgs], fun _ => hgs, fun hfalse => Bool.noConfusion hfalse⟩
  | false =>
      have hgs : generate_summary results
          = some (folderRow "All" results ::
              (groupKeys results).map (fun k =>
                folderRow k (results.filter (fun r => r.folder == k)))) := by
        simp [generate_summary, hne, hcase]
      refine ⟨by simp [hgs], fun htrue => Bool.noConfusion htrue, fun _ => ?_⟩
      have hgk : g ∈ groupKeys results := by
        unfold groupKeys
        rw [mem_sortStr]
        exact List.mem_dedup.mpr hg
      refine ⟨folderRow g (results.filter (fun r => r.folder == g)), ?_, rfl,
        ?_, ?_, ?_, ?_⟩
      · rw [hgs]
        simp only [Option.getD_some]
        exact List.mem_cons_of_mem _ (List.mem_map.mpr ⟨g, hgk, rfl⟩)
      · show meanQ (successTimes (results.filter (fun r => r.folder == g))) = none
        rw [hst]
        rfl
      · show (successTimes (results.filter (fun r => r.folder == g))).min? = none
        rw [hst]
        rfl
      · show (successTimes (results.filter (fun r => r.folder == g))).max? = none
        rw [hst]
        rfl
      · show medianQ (successTimes (results.filter (fun r => r.folder == g))) = none
        rw [hst]
        rfl

/-- A failed record in grouping `w512`. -/
def recErr : OutcomeRecord :=
  { folder := "w512"
    filename := "img0.jpg"
    status := "error"
    error := some "boom"
    processing_time := 2
    file_size := 1
    resolution := "Unknown"
    width := 0
    height := 0 }

/-- A successful record in grouping `w1080`. -/
def recOk : OutcomeRecord :=
  { folder := "w1080"
    filename := "img1.jpg"
    status := "success"
    error := none
    processing_time := 3
    file_size := 1
    resolution := "8x8"
    width := 8
    height := 8 }

/-- Witness for C6: grouping `w512` has only a failed record while the run
has a success elsewhere. -/
theorem C6_zero_success_degenerate_witness :
    (generate_summary [recErr, recOk]).isSome = true
    ∧ (([recErr, recOk].filter (fun r => r.status == "success")).isEmpty = true →
        generate_summary [recErr, recOk] = some [])
    ∧ (([recErr, recOk].filter (fun r => r.status == "success")).isEmpty = false →
        ∃ row ∈ (generate_summary [recErr, recOk]).getD [],
          row.folder = "w512" ∧ row.avg_time = none ∧ row.min_time = none
            ∧ row.max_time = none ∧ row.median_time = none) :=
  C6_zero_success_degenerate [recErr, recOk] "w512" (by decide) (by decide)

/-! ## Claims about grouping iteration order -/

/-- Filesystem with every folder and file present. -/
def fsAll : FileSystem :=
  FileSystem.mk (fun _ => true) (fun _ => true) (fun _ => 1) (fun _ => some (1, 1))

/-- C7 counterexample: with every grouping folder present, the generators
iterate `["w512", "w1080", "w1920", "w2560", "w3840"]`, which is not
lexicographic: `"w1080"` sorts before `"w512"` as a string. -/
theorem C7_counterexample :
    seqFolderOrder fsAll = ["w512", "w1080", "w1920", "w2560", "w3840"]
    ∧ ¬ List.Pairwise (fun a b => strLe a b = true) (seqFolderOrder fsAll)
    ∧ strLe "w1080" "w512" = true := by
  decide

/-- C7 amended: the grouping iteration order is deterministic — the items of
a sequential pass are grouped folder by folder following the fixed `FOLDERS`
constant filtered by existence, identical on every run over the same
filesystem — and `FOLDERS` ascends in numeric resolution width, not
lexicographically. -/
theorem C7_deterministic_width_order (fs : FileSystem) :
    (sequentialItems fs).map (fun p => p.folder)
      = (FOLDERS.filter fs.folderExists).flatMap (fun f =>
          List.replicate
            (imageNames.filter (fun n => fs.fileExists (ImagePath.mk f n))).length f)
    ∧ List.Pairwise (fun a b => widthOf a < widthOf b) FOLDERS := by
  constructor
  · unfold sequentialItems seqFolderOrder
    rw [List.map_flatMap]
    congr 1
    funext f
    rw [List.map_map]
    exact List.map_const' _ f
  · decide

/-! ## Claims about the Fixed-Count-Stress generator (spec-modelled) -/

/-- C8 (spec-modelled): for a nonempty bounded pool and requested total
`target`, the generator produces exactly `target` OutcomeRecords by cycling
over the pool (item `i` is pool element `i mod pool size`), stopping exactly
at the target even mid-cycle; every dispatched item comes from the pool. -/
theorem C8_exact_target_count (pool : List ImagePath) (exec : ImagePath → OutcomeRecord)
    (target : Nat) (h : pool ≠ []) :
    (run_fixed_count_stress pool exec target).length = target
    ∧ ∀ p ∈ fixedCountStressItems pool target, p ∈ pool := by
  have hni : pool.isEmpty = false := by
    cases pool with
    | nil => exact absurd rfl h
    | cons a t => rfl
  have hlen : 0 < pool.length := by
    cases pool with
    | nil => exact absurd rfl h
    | cons a t => simp
  constructor
  · unfold run_fixed_count_stress fixedCountStressItems
    rw [hni]
    simp
  · intro p hp
    unfold fixedCountStressItems at hp
    rw [hni] at hp
    simp only [Bool.false_eq_true, if_false] at hp
    obtain ⟨i, _, rfl⟩ := List.mem_map.mp hp
    have hmod : i % pool.length < pool.length := Nat.mod_lt _ hlen
    rw [List.getD_eq_getElem _ _ hmod]
    exact List.getElem_mem hmod

/-- The three-item pool of the C8 witness. -/
def poolC8 : List ImagePath :=
  [ImagePath.mk "w512" "img0.jpg", ImagePath.mk "w512" "img1.jpg",
   ImagePath.mk "w512" "img2.jpg"]

/-- A trivial executor for the C8 witness. -/
def execC8 (p : ImagePath) : OutcomeRecord :=
  { folder := p.folder
    filename := p.filename
    status := "success"
    error := none
    processing_time := 1
    file_size := 1
    resolution := "1x1"
    width := 1
    height := 1 }

/-- Witness for C8: target 7 over a 3-item pool (7 is not a multiple of 3)
yields exactly 7 records. -/
theorem C8_exact_target_count_witness :
    (run_fixed_count_stress poolC8 execC8 7).length = 7
    ∧ ∀ p ∈ fixedCountStressItems poolC8 7, p ∈ poolC8 :=
  C8_exact_target_count poolC8 execC8 7 (by decide)

/-! ## Claims about the enumerated filenames -/

/-- Helper: members of a per-folder image list carry one of the ten fixed
filenames. -/
theorem filename_mem_of_mem_folderImages (fs : FileSystem) (folder : String)
    (p : ImagePath) (hp : p ∈ concurrentFolderImages fs folder) :
    p.filename ∈ imageNames := by
  unfold concurrentFolderImages at hp
  obtain ⟨n, hn, rfl⟩ := List.mem_map.mp (List.mem_of_mem_filter hp)
  exact hn

/-- Helper: every round of the increasing-concurrency generator dispatches
exactly the image list of its folder. -/
theorem round_snd_eq (fs : FileSystem) (maxConc : Nat) (folder : String)
    (round : Nat × List ImagePath) (hr : round ∈ concurrentRounds fs maxConc folder) :
    round.2 = concurrentFolderImages fs folder := by
  unfold concurrentRounds at hr
  by_cases hi : (concurrentFolderImages fs folder).isEmpty = true
  · rw [if_pos hi] at hr
    cases hr
  · rw [if_neg hi] at hr
    obtain ⟨w, _, rfl⟩ := List.mem_map.mp hr
    rfl

/-- Helper: a filtered grouping holds at most the ten fixed items. -/
theorem dedup_filter_length_le (g : String) (l : List ImagePath)
    (h : ∀ p ∈ l, p.filename ∈ imageNames) :
    ((l.filter (fun p => p.folder == g)).dedup).length ≤ 10 := by
  have hsub : (l.filter (fun p => p.folder == g)).toFinset
      ⊆ (imageNames.map (fun n => ImagePath.mk g n)).toFinset := by
    intro p hp
    rw [List.mem_toFinset] at hp ⊢
    have hmem := List.mem_of_mem_filter hp
    have hfol : p.folder = g := by simpa using List.of_mem_filter hp
    have hp2 : ImagePath.mk g p.filename = p := by
      cases p with
      | mk fol fn =>
          cases hfol
          rfl
    exact List.mem_map.mpr ⟨p.filename, h p hmem, hp2⟩
  calc ((l.filter (fun p => p.folder == g)).dedup).length
      = (l.filter (fun p => p.folder == g)).toFinset.card := (List.card_toFinset _).symm
    _ ≤ (imageNames.map (fun n => ImagePath.mk g n)).toFinset.card :=
        Finset.card_le_card hsub
    _ ≤ (imageNames.map (fun n => ImagePath.mk g n)).length := List.toFinset_card_le _
    _ = 10 := by simp [imageNames]

/-- C10: every generator enumerates only the ten fixed filenames `img0.jpg`
... `img9.jpg` — any other file in a grouping folder is never dispatched —
and hence no grouping contributes more than 10 distinct WorkItems to a
generator pass (for random sampling, any `random.sample` result is a
sub-collection of its pool). -/
theorem C10_fixed_filenames (fs : FileSystem) (maxConc : Nat)
    (sample : Nat → List ImagePath → List ImagePath)
    (hsample : ∀ n l, ∀ p ∈ sample n l, p ∈ l) :
    (∀ p ∈ sequentialItems fs, p.filename ∈ imageNames)
    ∧ (∀ p ∈ concurrentItems fs maxConc, p.filename ∈ imageNames)
    ∧ (∀ p ∈ sample (min 5 (allImagePaths fs).length) (allImagePaths fs),
        p.filename ∈ imageNames)
    ∧ (∀ g : String,
        ((sequentialItems fs).filter (fun p => p.folder == g)).dedup.length ≤ 10
        ∧ ((concurrentItems fs maxConc).filter (fun p => p.folder == g)).dedup.length ≤ 10
        ∧ ((allImagePaths fs).filter (fun p => p.folder == g)).dedup.length ≤ 10) := by
  have hseq : ∀ p ∈ sequentialItems fs, p.filename ∈ imageNames := by
    intro p hp
    unfold sequentialItems at hp
    obtain ⟨folder, _, hmem⟩ := List.mem_flatMap.mp hp
    obtain ⟨n, hn, rfl⟩ := List.mem_map.mp hmem
    exact List.mem_of_mem_filter hn
  have hconc : ∀ p ∈ concurrentItems fs maxConc, p.filename ∈ imageNames := by
    intro p hp
    unfold concurrentItems at hp
    obtain ⟨folder, _, hp2⟩ := List.mem_flatMap.mp hp
    obtain ⟨round, hround, hp3⟩ := List.mem_flatMap.mp hp2
    rw [round_snd_eq fs maxConc folder round hround] at hp3
    exact filename_mem_of_mem_folderImages fs folder p hp3
  have hpool : ∀ p ∈ allImagePaths fs, p.filename ∈ imageNames := by
    intro p hp
    unfold allImagePaths at hp
    obtain ⟨folder, _, hin⟩ := List.mem_flatMap.mp hp
    exact filename_mem_of_mem_folderImages fs folder p hin
  refine ⟨hseq, hconc, fun p hp => hpool p (hsample _ _ p hp), fun g =>
    ⟨dedup_filter_length_le g _ hseq, dedup_filter_length_le g _ hconc,
      dedup_filter_length_le g _ hpool⟩⟩

/-- Filesystem for the C10 witness: everything exists. -/
def fsC10 : FileSystem :=
  FileSystem.mk (fun _ => true) (fun _ => true) (fun _ => 5) (fun _ => some (3, 3))

/-- Witness for C10 with the take-based sample function. -/
theorem C10_fixed_filenames_witness :
    (∀ p ∈ sequentialItems fsC10, p.filename ∈ imageNames)
    ∧ (∀ p ∈ concurrentItems fsC10 10, p.filename ∈ imageNames)
    ∧ (∀ p ∈ takeSample (min 5 (allImagePaths fsC10).length) (allImagePaths fsC10),
        p.filename ∈ imageNames)
    ∧ (∀ g : String,
        ((sequentialItems fsC10).filter (fun p => p.folder == g)).dedup.length ≤ 10
        ∧ ((concurrentItems fsC10 10).filter (fun p => p.folder == g)).dedup.length ≤ 10
        ∧ ((allImagePaths fsC10).filter (fun p => p.folder == g)).dedup.length ≤ 10) :=
  C10_fixed_filenames fsC10 10 takeSample (fun n l p hp => List.take_subset n l hp)
